import Mathlib

/-!
Verification of the pysep horizontal separator sizing library.

Shallow embedding conventions:
* Python floats are modelled as real numbers (`ℝ`).
* Python exceptions (ValueError, ZeroDivisionError, KeyError, AttributeError)
  are modelled with the `Except Err` monad; every Python division, square
  root and logarithm goes through a guarded operation that returns the
  corresponding error exactly when Python would raise.
* The single place where Python produces a non-raising IEEE infinity
  (drag_coeff at re = 0 returning float inf) is modelled with `WithTop ℝ`,
  whose `⊤` is the greatest element of the order.
* The two unbounded `while True` fixed-point loops are modelled with an
  explicit fuel argument; exhausted fuel is the `noConverge` error.
-/

namespace PySep

noncomputable section

/-- Errors a pysep computation can raise.  Each constructor corresponds to a
concrete Python exception site. -/
inductive Err where
  /-- ValueError in circle_segment primitives: height exceeds radius. -/
  | segDomain : Err
  /-- ValueError in three-phase functions: water height above oil height. -/
  | orderWatOil : Err
  /-- ValueError in three-phase functions: oil height above vessel diameter. -/
  | orderOilDiam : Err
  /-- ValueError in two-phase functions: liquid height above vessel diameter. -/
  | liqDiam : Err
  /-- Python ZeroDivisionError. -/
  | zeroDiv : Err
  /-- ValueError from math.sqrt applied to a negative number. -/
  | sqrtNeg : Err
  /-- ValueError from math.log applied to a non-positive number. -/
  | logDomain : Err
  /-- ValueError in surface_spheroid_oblate: x radius not above y radius. -/
  | spheroidDomain : Err
  /-- AttributeError: a looked-up module attribute does not exist. -/
  | missingFn : Err
  /-- The while-True loop did not converge within the provided fuel. -/
  | noConverge : Err
  /-- A non-finite float arose where the real-number model cannot follow. -/
  | nonfinite : Err
deriving DecidableEq

/-- Guarded division: Python raises ZeroDivisionError on a zero divisor. -/
def fdiv (x y : ℝ) : Except Err ℝ :=
  if y = 0 then .error .zeroDiv else pure (x / y)

/-- Guarded square root: math.sqrt raises ValueError on negative input. -/
def fsqrt (x : ℝ) : Except Err ℝ :=
  if x < 0 then .error .sqrtNeg else pure (Real.sqrt x)

/-- Guarded logarithm: math.log raises ValueError on non-positive input. -/
def flog (x : ℝ) : Except Err ℝ :=
  if x ≤ 0 then .error .logDomain else pure (Real.log x)

/-! ### geometry.py -/

/-- The closed-form circular-segment area expression from
circle_segment_area (the arithmetic on line 35 of geometry.py, without the
height guard). -/
def segment_area_fm (h r : ℝ) : ℝ :=
  r ^ 2 * Real.arccos (1 - h / r) - (r - h) * Real.sqrt (r ^ 2 - (r - h) ^ 2)

/-- circle_segment_area: guard h > r, then the closed-form area. -/
def circle_segment_area (h r : ℝ) : Except Err ℝ :=
  if h > r then .error .segDomain else pure (segment_area_fm h r)

/-- circle_segment_perimeter: guard h > r, then the arc length. -/
def circle_segment_perimeter (h r : ℝ) : Except Err ℝ :=
  if h > r then .error .segDomain else pure (r * 2 * Real.arccos ((r - h) / r))

/-- circle_chord_length: guard h > r, then the chord length. -/
def circle_chord_length (h r : ℝ) : Except Err ℝ :=
  if h > r then .error .segDomain else pure (2 * Real.sqrt (r ^ 2 - (r - h) ^ 2))

/-- hydraulic_diameter: 4 * a / wp (ZeroDivisionError when wp = 0). -/
def hydraulic_diameter (a wp : ℝ) : Except Err ℝ :=
  fdiv (4 * a) wp

/-- vessel_area_two_phase: liquid band via the fold-over rule, gas band as
the remainder of the circle. -/
def vessel_area_two_phase (vid hliq : ℝ) : Except Err (ℝ × ℝ) :=
  if hliq > vid then .error .liqDiam else
  let r := vid / 2
  let atot := Real.pi * r ^ 2
  do
    let aliq ←
      if hliq ≤ r then
        circle_segment_area hliq r
      else do
        let a ← circle_segment_area (vid - hliq) r
        pure (atot - a)
    pure (aliq, atot - aliq)

/-- vessel_area_three_phase: water band via the fold-over rule on hwat, gas
band via the fold-over rule on vid - hoil, oil band as the remainder. -/
def vessel_area_three_phase (vid hoil hwat : ℝ) : Except Err (ℝ × ℝ × ℝ) :=
  if hwat > hoil then .error .orderWatOil else
  if hoil > vid then .error .orderOilDiam else
  let r := vid / 2
  let atot := Real.pi * r ^ 2
  do
    let awat ←
      if hwat ≤ r then
        circle_segment_area hwat r
      else do
        let a ← circle_segment_area (vid - hwat) r
        pure (atot - a)
    let hgas := vid - hoil
    let agas ←
      if hgas ≤ r then
        circle_segment_area hgas r
      else do
        let a ← circle_segment_area (vid - hgas) r
        pure (atot - a)
    pure (atot - awat - agas, awat, agas)

/-- vessel_perim_three_phase: arc lengths apportioned by the fold-over rule,
chords of the two interfaces added to the wetted perimeters. -/
def vessel_perim_three_phase (vid hoil hwat : ℝ) : Except Err (ℝ × ℝ × ℝ) :=
  if hwat > hoil then .error .orderWatOil else
  if hoil > vid then .error .orderOilDiam else
  let r := vid / 2
  let pm_tot := Real.pi * 2 * r
  do
    let pw ←
      if hwat ≤ r then do
        let p ← circle_segment_perimeter hwat r
        let c ← circle_chord_length hwat r
        pure (p, c)
      else do
        let p ← circle_segment_perimeter (vid - hwat) r
        let c ← circle_chord_length (vid - hwat) r
        pure (pm_tot - p, c)
    let hgas := vid - hoil
    let pg ←
      if hgas ≤ r then do
        let p ← circle_segment_perimeter hgas r
        let c ← circle_chord_length hgas r
        pure (p, c)
      else do
        let p ← circle_segment_perimeter (vid - hgas) r
        let c ← circle_chord_length (vid - hgas) r
        pure (pm_tot - p, c)
    let pm_oil := pm_tot - pw.1 - pg.1
    pure (pm_oil + pw.2 + pg.2, pw.1 + pw.2, pg.1 + pg.2)

/-- vessel_dhyd_three_phase: hydraulic diameter of each band. -/
def vessel_dhyd_three_phase (vid hoil hwat : ℝ) : Except Err (ℝ × ℝ × ℝ) := do
  let a ← vessel_area_three_phase vid hoil hwat
  let wp ← vessel_perim_three_phase vid hoil hwat
  let d_oil ← hydraulic_diameter a.1 wp.1
  let d_wat ← hydraulic_diameter a.2.1 wp.2.1
  let d_gas ← hydraulic_diameter a.2.2 wp.2.2
  pure (d_oil, d_wat, d_gas)

/-- vessel_perim_two_phase: liquid arc by the fold-over rule, gas arc the
remainder, interface chord added to both. -/
def vessel_perim_two_phase (vid hliq : ℝ) : Except Err (ℝ × ℝ) :=
  if hliq > vid then .error .liqDiam else
  let r := vid / 2
  let pm_tot := Real.pi * 2 * r
  do
    let pl ←
      if hliq ≤ r then do
        let p ← circle_segment_perimeter hliq r
        let c ← circle_chord_length hliq r
        pure (p, c)
      else do
        let p ← circle_segment_perimeter (vid - hliq) r
        let c ← circle_chord_length (vid - hliq) r
        pure (pm_tot - p, c)
    let pm_gas := pm_tot - pl.1
    pure (pl.1 + pl.2, pm_gas + pl.2)

/-- vessel_dhyd_two_phase: hydraulic diameter of the two bands. -/
def vessel_dhyd_two_phase (vid hliq : ℝ) : Except Err (ℝ × ℝ) := do
  let a ← vessel_area_two_phase vid hliq
  let wp ← vessel_perim_two_phase vid hliq
  let d_liq ← hydraulic_diameter a.1 wp.1
  let d_gas ← hydraulic_diameter a.2 wp.2
  pure (d_liq, d_gas)

/-! ### drops.py -/

/-- micron_to_feet: microns to feet. -/
def micron_to_feet (dm : ℝ) : ℝ := dm / 304800

/-- feet_to_micron: feet to microns. -/
def feet_to_micron (df : ℝ) : ℝ := df * 304800

/-- centipoise_to_lbm: centipoise to lbm/(ft*s). -/
def centipoise_to_lbm (mu_cp : ℝ) : ℝ := mu_cp / 1488.2

/-- velocity_drop: terminal velocity of a droplet for a given drag
coefficient, with the density difference taken in absolute value. -/
def velocity_drop (dd cd rho_drop rho_fld g : ℝ) : Except Err ℝ := do
  let q ← fdiv (rho_drop - rho_fld) rho_fld
  let drho := |q|
  let rat ← fdiv dd cd
  fsqrt (4 * g / 3 * rat * drho)

/-- diameter_drop: droplet diameter for a given terminal velocity and drag
coefficient, with the density ratio taken in absolute value. -/
def diameter_drop (vt cd rho_drop rho_fld g : ℝ) : Except Err ℝ := do
  let q ← fdiv rho_fld (rho_drop - rho_fld)
  let drho := |q|
  let rat ← fdiv 3 (4 * g)
  pure (vt ^ 2 * rat * cd * drho)

/-- reynolds_sphere: Reynolds number of a sphere moving through a fluid. -/
def reynolds_sphere (dd vd rho_fld mu_fld : ℝ) : Except Err ℝ :=
  fdiv (dd * vd * rho_fld) mu_fld

/-- drag_coeff: empirical sphere drag correlation.  At re = 0 the Python
code returns the IEEE infinity, modelled here as the top element of
WithTop ℝ; for negative re the sqrt raises as in Python. -/
def drag_coeff (re : ℝ) : Except Err (WithTop ℝ) :=
  if re = 0 then pure ⊤
  else do
    let t1 ← fdiv 24 re
    let s ← fsqrt re
    let t2 ← fdiv 3 s
    pure ((t1 + t2 + 0.34 : ℝ) : WithTop ℝ)

/-- Continue a droplet computation with a finite drag coefficient.  The
solvers below only reach drag_coeff with a strictly positive Reynolds
number, so the top branch is dead code there; Python would carry a
non-finite float, which the real-number model flags instead. -/
def with_cd {α : Type} (cdw : WithTop ℝ) (k : ℝ → Except Err α) : Except Err α :=
  WithTop.recTopCoe (.error .nonfinite) k cdw

/-- One body of the velocity_terminal while-loop: Reynolds from the current
velocity, drag coefficient from the correlation, new velocity. -/
def velocity_step (dd rho_drop rho_fld mu_fld g vt : ℝ) : Except Err ℝ := do
  let re ← reynolds_sphere dd vt rho_fld mu_fld
  let cdw ← drag_coeff re
  with_cd cdw fun cd => velocity_drop dd cd rho_drop rho_fld g

/-- The velocity_terminal while-loop with fuel, stopping when successive
velocities differ by less than 0.001. -/
def velocity_terminal_go (dd rho_drop rho_fld mu_fld g : ℝ) : ℕ → ℝ → Except Err ℝ
  | 0, _ => .error .noConverge
  | n + 1, vt => do
    let vt_new ← velocity_step dd rho_drop rho_fld mu_fld g vt
    if |vt_new - vt| < 0.001 then pure vt_new
    else velocity_terminal_go dd rho_drop rho_fld mu_fld g n vt_new

/-- velocity_terminal: start from the turbulent guess cd = 0.34 and iterate. -/
def velocity_terminal (fuel : ℕ) (dd rho_drop rho_fld mu_fld g : ℝ) : Except Err ℝ := do
  let vt ← velocity_drop dd 0.34 rho_drop rho_fld g
  velocity_terminal_go dd rho_drop rho_fld mu_fld g fuel vt

/-- One body of the droplet_diameter while-loop: Reynolds from the current
diameter, drag coefficient from the correlation, new diameter. -/
def diameter_step (vt rho_drop rho_fld mu_fld g dd : ℝ) : Except Err ℝ := do
  let re ← reynolds_sphere dd vt rho_fld mu_fld
  let cdw ← drag_coeff re
  with_cd cdw fun cd => diameter_drop vt cd rho_drop rho_fld g

/-- The droplet_diameter while-loop with fuel, stopping when successive
diameters differ by less than 1e-9. -/
def droplet_diameter_go (vt rho_drop rho_fld mu_fld g : ℝ) : ℕ → ℝ → Except Err ℝ
  | 0, _ => .error .noConverge
  | n + 1, dd => do
    let dd_new ← diameter_step vt rho_drop rho_fld mu_fld g dd
    if |dd_new - dd| < 1e-9 then pure dd_new
    else droplet_diameter_go vt rho_drop rho_fld mu_fld g n dd_new

/-- droplet_diameter: start from the turbulent guess cd = 0.34 and iterate. -/
def droplet_diameter (fuel : ℕ) (vt rho_drop rho_fld mu_fld g : ℝ) : Except Err ℝ := do
  let dd ← diameter_drop vt 0.34 rho_drop rho_fld g
  droplet_diameter_go vt rho_drop rho_fld mu_fld g fuel dd

/-! ### fluids.py -/

/-- volm_flow: volumetric flow from mass flow and density, per second. -/
def volm_flow (mflo rho : ℝ) : Except Err ℝ := do
  let q ← fdiv mflo rho
  pure (q * (1 / (60 * 60)))

/-- velocity_volm: bulk velocity from volumetric flow and area. -/
def velocity_volm (vflo area : ℝ) : Except Err ℝ :=
  fdiv vflo area

/-- retention: retention time in minutes from effective length and velocity. -/
def retention (leff vx : ℝ) : Except Err ℝ := do
  let q ← fdiv leff vx
  pure (q * (1 / 60))

/-- reynolds: pipe Reynolds number. -/
def reynolds (vel rho dhyd mu : ℝ) : Except Err ℝ :=
  fdiv (rho * vel * dhyd) mu

/-- three_phase_velocities: bulk velocities of the three phases and the
matching retention times.  Note the retention times divide the seam-to-seam
length lss, written inline in the source. -/
def three_phase_velocities (vid lss hoil hwat vflo_oil vflo_wat vflo_gas : ℝ) :
    Except Err (ℝ × ℝ × ℝ × ℝ × ℝ × ℝ) := do
  let a ← vessel_area_three_phase vid hoil hwat
  let vx_oil ← fdiv vflo_oil a.1
  let vx_wat ← fdiv vflo_wat a.2.1
  let vx_gas ← fdiv vflo_gas a.2.2
  let rq_oil ← fdiv lss vx_oil
  let rq_wat ← fdiv lss vx_wat
  let rq_gas ← fdiv lss vx_gas
  pure (vx_oil, vx_wat, vx_gas, rq_oil * (1 / 60), rq_wat * (1 / 60), rq_gas * (1 / 60))

/-! ### mechanical.py -/

/-- sep_shell_thick: UG-27c thin-wall shell thickness plus corrosion
allowance. -/
def sep_shell_thick (vid mawp : ℝ) (sv : ℝ := 20000) (eff : ℝ := 1)
    (corr : ℝ := 0.125) : Except Err ℝ := do
  let vir := 12 * vid / 2
  let thk_base ← fdiv (mawp * vir) (sv * eff - 0.6 * mawp)
  pure (thk_base + corr)

/-- surface_spheroid_oblate: oblate-spheroid surface area, guarded on the
radius ordering as in the source. -/
def surface_spheroid_oblate (x_radius y_radius : ℝ) : Except Err ℝ :=
  if x_radius ≤ y_radius then .error .spheroidDomain else do
    let v ← fdiv (y_radius ^ 2) (x_radius ^ 2)
    let ecc ← fsqrt (1 - v)
    let t ← fdiv (Real.pi * y_radius ^ 2) ecc
    let q ← fdiv (1 + ecc) (1 - ecc)
    let l ← flog q
    pure (2 * Real.pi * x_radius ^ 2 + t * l)

/-- surface_cylinder: lateral surface area of a cylinder. -/
def surface_cylinder (diam height : ℝ) : ℝ :=
  Real.pi * diam * height

/-- surface_elliptical_head: half an oblate spheroid with a 2:1 aspect. -/
def surface_elliptical_head (vid : ℝ) : Except Err ℝ := do
  let a_surf ← surface_spheroid_oblate (vid / 2) (vid / 2 / 2)
  pure (a_surf / 2)

/-- vessel_bare_weight: shell plus two elliptical heads times metal
density. -/
def vessel_bare_weight (vid lss thk : ℝ) (rho_metal : ℝ := 490) : Except Err ℝ := do
  let as_cyli := surface_cylinder vid lss
  let vs_cyli := as_cyli * thk / 12
  let wg_cyli := rho_metal * vs_cyli
  let as_head ← surface_elliptical_head vid
  let vs_head := as_head * thk / 12
  let wg_head := rho_metal * vs_head
  pure (wg_cyli + 2 * wg_head)

/-! ### separator.py -/

/-- A stream property record.  The Python dictionaries carry exactly the
required keys mass_flow, density, viscosity; validate_props checks their
presence, which the structure guarantees by construction. -/
structure StreamProps where
  mass_flow : ℝ
  density : ℝ
  viscosity : ℝ

/-- The attribute state of a constructed SepTwoPhase object.  The mawp
field is absent (none) until shell_thick stores it. -/
structure SepTwoPhase where
  vid : ℝ
  lss : ℝ
  leff : ℝ
  hliq : ℝ
  liq_props : StreamProps
  gas_props : StreamProps
  g : ℝ
  aliq : ℝ
  agas : ℝ
  vx_liq : ℝ
  vx_gas : ℝ
  re_liq : ℝ
  re_gas : ℝ
  ret_liq : ℝ
  ret_gas : ℝ
  drop_liq : ℝ
  mawp : Option ℝ

/-- SepTwoPhase.__init__: the full two-phase sizing computation. -/
def mkSepTwoPhase (fuel : ℕ) (vid lss leff hliq : ℝ)
    (liq_props gas_props : StreamProps) : Except Err SepTwoPhase := do
  let a ← vessel_area_two_phase vid hliq
  let dh ← vessel_dhyd_two_phase vid hliq
  let qliq ← volm_flow liq_props.mass_flow liq_props.density
  let qgas ← volm_flow gas_props.mass_flow gas_props.density
  let vx_liq ← velocity_volm qliq a.1
  let vx_gas ← velocity_volm qgas a.2
  let ret_liq ← retention leff vx_liq
  let ret_gas ← retention leff vx_gas
  let mu_gas := centipoise_to_lbm gas_props.viscosity
  let re_liq ← reynolds vx_liq liq_props.density dh.1 (centipoise_to_lbm liq_props.viscosity)
  let re_gas ← reynolds vx_gas gas_props.density dh.2 mu_gas
  let dh_gas := vid - hliq
  let vt_gas_req ← fdiv dh_gas (ret_gas * 60)
  let g := 32.174
  let drop_liq ← droplet_diameter fuel vt_gas_req liq_props.density gas_props.density mu_gas g
  pure { vid := vid, lss := lss, leff := leff, hliq := hliq,
         liq_props := liq_props, gas_props := gas_props, g := g,
         aliq := a.1, agas := a.2, vx_liq := vx_liq, vx_gas := vx_gas,
         re_liq := re_liq, re_gas := re_gas, ret_liq := ret_liq, ret_gas := ret_gas,
         drop_liq := feet_to_micron drop_liq, mawp := none }

/-- SepMech.shell_thick as acting on a two-phase object: stores mawp on the
object, then delegates to sep_shell_thick. -/
def SepTwoPhase.shell_thick (s : SepTwoPhase) (mawp : ℝ) (sv : ℝ := 20000)
    (eff : ℝ := 1) (corr : ℝ := 0.125) : Except Err (SepTwoPhase × ℝ) := do
  let s2 := { s with mawp := some mawp }
  let thk ← sep_shell_thick s2.vid mawp sv eff corr
  pure (s2, thk)

/-- SepMech.weight_bare as acting on a two-phase object. -/
def SepTwoPhase.weight_bare (s : SepTwoPhase) (thk : ℝ) (rho_metal : ℝ := 490) :
    Except Err (SepTwoPhase × ℝ) := do
  let w ← vessel_bare_weight s.vid s.lss thk rho_metal
  pure (s, w)

/-- SepTwoPhase.terminal_lig: terminal velocity of a liquid droplet in the
gas phase for a droplet diameter in microns. -/
def SepTwoPhase.terminal_lig (fuel : ℕ) (s : SepTwoPhase) (dm : ℝ) :
    Except Err (SepTwoPhase × ℝ) := do
  let dd := micron_to_feet dm
  let mu_gas := centipoise_to_lbm s.gas_props.viscosity
  let vt ← velocity_terminal fuel dd s.liq_props.density s.gas_props.density mu_gas s.g
  pure (s, vt)

/-- The attribute state of a constructed SepThreePhase object. -/
structure SepThreePhase where
  vid : ℝ
  lss : ℝ
  leff : ℝ
  hoil : ℝ
  hwat : ℝ
  oil_props : StreamProps
  wat_props : StreamProps
  gas_props : StreamProps
  g : ℝ
  aoil : ℝ
  awat : ℝ
  agas : ℝ
  vx_oil : ℝ
  vx_wat : ℝ
  vx_gas : ℝ
  re_oil : ℝ
  re_wat : ℝ
  re_gas : ℝ
  ret_oil : ℝ
  ret_wat : ℝ
  ret_gas : ℝ
  drop_oiw : ℝ
  drop_wio : ℝ
  drop_oig : ℝ
  mawp : Option ℝ

/-- SepThreePhase.__init__: the full three-phase sizing computation. -/
def mkSepThreePhase (fuel : ℕ) (vid lss leff hoil hwat : ℝ)
    (oil_props wat_props gas_props : StreamProps) : Except Err SepThreePhase := do
  let a ← vessel_area_three_phase vid hoil hwat
  let dh ← vessel_dhyd_three_phase vid hoil hwat
  let qoil ← volm_flow oil_props.mass_flow oil_props.density
  let qwat ← volm_flow wat_props.mass_flow wat_props.density
  let qgas ← volm_flow gas_props.mass_flow gas_props.density
  let vx_oil ← velocity_volm qoil a.1
  let vx_wat ← velocity_volm qwat a.2.1
  let vx_gas ← velocity_volm qgas a.2.2
  let ret_oil ← retention leff vx_oil
  let ret_wat ← retention leff vx_wat
  let ret_gas ← retention leff vx_gas
  let mu_oil := centipoise_to_lbm oil_props.viscosity
  let mu_wat := centipoise_to_lbm wat_props.viscosity
  let mu_gas := centipoise_to_lbm gas_props.viscosity
  let re_oil ← reynolds vx_oil oil_props.density dh.1 mu_oil
  let re_wat ← reynolds vx_wat wat_props.density dh.2.1 mu_wat
  let re_gas ← reynolds vx_gas gas_props.density dh.2.2 mu_gas
  let dh_gas := vid - hoil
  let dh_oil := hoil - hwat
  let vt_oiw_req ← fdiv hwat (ret_wat * 60)
  let vt_wio_req ← fdiv dh_oil (ret_oil * 60)
  let vt_oig_req ← fdiv dh_gas (ret_gas * 60)
  let g := 32.174
  let drop_oiw ← droplet_diameter fuel vt_oiw_req oil_props.density wat_props.density mu_wat g
  let drop_wio ← droplet_diameter fuel vt_wio_req wat_props.density oil_props.density mu_oil g
  let drop_oig ← droplet_diameter fuel vt_oig_req oil_props.density gas_props.density mu_gas g
  pure { vid := vid, lss := lss, leff := leff, hoil := hoil, hwat := hwat,
         oil_props := oil_props, wat_props := wat_props, gas_props := gas_props,
         g := g, aoil := a.1, awat := a.2.1, agas := a.2.2,
         vx_oil := vx_oil, vx_wat := vx_wat, vx_gas := vx_gas,
         re_oil := re_oil, re_wat := re_wat, re_gas := re_gas,
         ret_oil := ret_oil, ret_wat := ret_wat, ret_gas := ret_gas,
         drop_oiw := feet_to_micron drop_oiw, drop_wio := feet_to_micron drop_wio,
         drop_oig := feet_to_micron drop_oig, mawp := none }

/-- SepMech.shell_thick as acting on a three-phase object. -/
def SepThreePhase.shell_thick (s : SepThreePhase) (mawp : ℝ) (sv : ℝ := 20000)
    (eff : ℝ := 1) (corr : ℝ := 0.125) : Except Err (SepThreePhase × ℝ) := do
  let s2 := { s with mawp := some mawp }
  let thk ← sep_shell_thick s2.vid mawp sv eff corr
  pure (s2, thk)

/-- SepMech.weight_bare as acting on a three-phase object. -/
def SepThreePhase.weight_bare (s : SepThreePhase) (thk : ℝ) (rho_metal : ℝ := 490) :
    Except Err (SepThreePhase × ℝ) := do
  let w ← vessel_bare_weight s.vid s.lss thk rho_metal
  pure (s, w)

/-- SepThreePhase.coal_plate_length: the method computes the terminal rise
velocity of the oil droplet through water, then evaluates the module
attribute drp.coal_plate_length, which does not exist in pysep.drops; the
lookup raises AttributeError (modelled as the missingFn error).  The pgap,
angl and pf parameters are accepted with defaults but never used. -/
def SepThreePhase.coal_plate_length (fuel : ℕ) (s : SepThreePhase) (dm : ℝ)
    (pgap : ℝ := 0.75) (angl : ℝ := 45) (pf : ℝ := 0.6) :
    Except Err (SepThreePhase × ℝ) := do
  let dd := micron_to_feet dm
  let _vt_oil ← velocity_terminal fuel dd s.oil_props.density s.wat_props.density
    (centipoise_to_lbm s.wat_props.viscosity) 32.174
  .error .missingFn

/-- An arbitrary but fixed two-phase separator state used to exhibit the
post-construction write performed by shell_thick. -/
def sample_two_phase : SepTwoPhase where
  vid := 1
  lss := 1
  leff := 1
  hliq := 1
  liq_props := ⟨1, 1, 1⟩
  gas_props := ⟨1, 1, 1⟩
  g := 32.174
  aliq := 1
  agas := 1
  vx_liq := 1
  vx_gas := 1
  re_liq := 1
  re_gas := 1
  ret_liq := 1
  ret_gas := 1
  drop_liq := 1
  mawp := none

/-- The state produced by constructing a two-phase separator on a diameter-2
vessel, half full, with streams tuned so that both bulk velocities are one
foot per second and the diameter solver converges in a single step. -/
def sample_constructed : SepTwoPhase where
  vid := 2
  lss := 4
  leff := 1
  hliq := 1
  liq_props := ⟨3600 * Real.pi, 2, 1488.2⟩
  gas_props := ⟨1800 * Real.pi, 1, 379491 / 321740000000000000000⟩
  g := 32.174
  aliq := Real.pi / 2
  agas := Real.pi / 2
  vx_liq := 1
  vx_gas := 1
  re_liq := 2 * 1 * (2 * Real.pi / (Real.pi + 2)) / centipoise_to_lbm 1488.2
  re_gas := 1 * 1 * (2 * Real.pi / (Real.pi + 2)) /
    centipoise_to_lbm (379491 / 321740000000000000000)
  ret_liq := 1 / 60
  ret_gas := 1 / 60
  drop_liq := feet_to_micron
    (3 / 128.696 * (24 / 10000000000000000 + 3 / 100000000 + 0.34))
  mawp := none

/-- The drag correlation's closed form as a real-valued function: the value
drag_coeff computes on its nonzero branch. -/
def cdR (re : ℝ) : ℝ := 24 / re + 3 / Real.sqrt re + 0.34

/-- A sample round trip of the two solvers: droplet diameter 1/1000 ft,
droplet density 2, fluid density 1, viscosity 1e-19 and g = 255, chosen so
the starting velocity guess is exactly 1 ft/s and both loops accept at
their first tolerance check.  vround is the velocity the terminal-velocity
solver returns there. -/
def vround : ℝ :=
  Real.sqrt (4 * 255 / 3 * (1 / 1000 / cdR 10000000000000000) * |((2 : ℝ) - 1) / 1|)

/-- In the Except monad, pure is ok. -/
@[simp]
theorem pure_ok {α : Type} (a : α) : (pure a : Except Err α) = Except.ok a := rfl

/-- Binding a successful Except computation applies the continuation. -/
@[simp]
theorem ok_bind {α β : Type} (a : α) (f : α → Except Err β) :
    (Except.ok a >>= f : Except Err β) = f a := rfl

/-- Binding a failed Except computation propagates the error. -/
@[simp]
theorem error_bind {α β : Type} (e : Err) (f : α → Except Err β) :
    (Except.error e >>= f : Except Err β) = .error e := rfl

/-- For any liquid height not exceeding the diameter, the two-phase area
split succeeds and returns a pair of the form (a, total - a). -/
theorem vessel_area_two_phase_ok (vid hliq : ℝ) (h2 : hliq ≤ vid) :
    ∃ a, vessel_area_two_phase vid hliq = .ok (a, Real.pi * (vid / 2) ^ 2 - a) := by
  by_cases hb : hliq ≤ vid / 2
  · exact ⟨segment_area_fm hliq (vid / 2), by
      simp [vessel_area_two_phase, circle_segment_area, hb, not_lt.mpr h2, not_lt.mpr hb]⟩
  · have hfold : ¬ vid - hliq > vid / 2 := by
      push_neg
      linarith [not_le.mp hb]
    exact ⟨Real.pi * (vid / 2) ^ 2 - segment_area_fm (vid - hliq) (vid / 2), by
      simp [vessel_area_two_phase, circle_segment_area, hb, not_lt.mpr h2, hfold]⟩

/-- For any ordered height pair the three-phase area split succeeds and
returns a triple of the form (total - aw - ag, aw, ag). -/
theorem vessel_area_three_phase_ok (vid hoil hwat : ℝ) (h4 : hwat ≤ hoil)
    (h5 : hoil ≤ vid) :
    ∃ aw ag, vessel_area_three_phase vid hoil hwat =
      .ok (Real.pi * (vid / 2) ^ 2 - aw - ag, aw, ag) := by
  have hw2 : hwat ≤ vid := le_trans h4 h5
  by_cases hbw : hwat ≤ vid / 2 <;> by_cases hbg : vid - hoil ≤ vid / 2
  · refine ⟨segment_area_fm hwat (vid / 2), segment_area_fm (vid - hoil) (vid / 2), ?_⟩
    have hg : ¬ vid - hoil > vid / 2 := not_lt.mpr hbg
    simp [vessel_area_three_phase, circle_segment_area, hbw, hbg,
      not_lt.mpr h4, not_lt.mpr h5, not_lt.mpr hbw, hg]
  · have hfold : hoil ≤ vid / 2 := by linarith [not_le.mp hbg]
    refine ⟨segment_area_fm hwat (vid / 2),
      Real.pi * (vid / 2) ^ 2 - segment_area_fm hoil (vid / 2), ?_⟩
    simp [vessel_area_three_phase, circle_segment_area, hbw, hbg,
      not_lt.mpr h4, not_lt.mpr h5, not_lt.mpr hbw, not_lt.mpr hfold, sub_sub_cancel]
  · have hfoldw : ¬ vid - hwat > vid / 2 := by
      push_neg
      linarith [not_le.mp hbw]
    refine ⟨Real.pi * (vid / 2) ^ 2 - segment_area_fm (vid - hwat) (vid / 2),
      segment_area_fm (vid - hoil) (vid / 2), ?_⟩
    have hg : ¬ vid - hoil > vid / 2 := not_lt.mpr hbg
    simp [vessel_area_three_phase, circle_segment_area, hbw, hbg,
      not_lt.mpr h4, not_lt.mpr h5, hfoldw, hg]
  · have hfoldw : ¬ vid - hwat > vid / 2 := by
      push_neg
      linarith [not_le.mp hbw]
    have hfold : hoil ≤ vid / 2 := by linarith [not_le.mp hbg]
    refine ⟨Real.pi * (vid / 2) ^ 2 - segment_area_fm (vid - hwat) (vid / 2),
      Real.pi * (vid / 2) ^ 2 - segment_area_fm hoil (vid / 2), ?_⟩
    simp [vessel_area_three_phase, circle_segment_area, hbw, hbg,
      not_lt.mpr h4, not_lt.mpr h5, hfoldw, not_lt.mpr hfold, sub_sub_cancel]
    ring

/-- C1: for every vessel inner diameter vid > 0 and every valid height
combination (0 < hliq ≤ vid for two-phase; 0 < hwat ≤ hoil ≤ vid for
three-phase), the phase band areas returned by vessel_area_two_phase and
vessel_area_three_phase sum exactly to the total cross-sectional area
pi * (vid / 2) ^ 2. -/
theorem claim_C1 (vid hliq hoil hwat : ℝ) (hvid : 0 < vid) (h1 : 0 < hliq)
    (h2 : hliq ≤ vid) (h3 : 0 < hwat) (h4 : hwat ≤ hoil) (h5 : hoil ≤ vid) :
    (∃ aliq agas, vessel_area_two_phase vid hliq = .ok (aliq, agas) ∧
      aliq + agas = Real.pi * (vid / 2) ^ 2) ∧
    (∃ aoil awat agas, vessel_area_three_phase vid hoil hwat = .ok (aoil, awat, agas) ∧
      aoil + awat + agas = Real.pi * (vid / 2) ^ 2) := by
  constructor
  · obtain ⟨a, ha⟩ := vessel_area_two_phase_ok vid hliq h2
    exact ⟨a, Real.pi * (vid / 2) ^ 2 - a, ha, by ring⟩
  · obtain ⟨aw, ag, ha⟩ := vessel_area_three_phase_ok vid hoil hwat h4 h5
    exact ⟨Real.pi * (vid / 2) ^ 2 - aw - ag, aw, ag, ha, by ring⟩

/-- C1 witness: the partition theorem applied at vid = 2, hliq = hoil = hwat = 1. -/
theorem claim_C1_witness :
    (∃ aliq agas, vessel_area_two_phase 2 1 = .ok (aliq, agas) ∧
      aliq + agas = Real.pi * ((2 : ℝ) / 2) ^ 2) ∧
    (∃ aoil awat agas, vessel_area_three_phase 2 1 1 = .ok (aoil, awat, agas) ∧
      aoil + awat + agas = Real.pi * ((2 : ℝ) / 2) ^ 2) :=
  claim_C1 2 1 1 1 (by norm_num) (by norm_num) (by norm_num) (by norm_num)
    (by norm_num) (by norm_num)

/-- C4 counterexample: the claim invokes the circular-segment area function
at heights strictly between r and 2r, but circle_segment_area rejects every
height above the radius with a domain error, so at h = 3/2, r = 1 the claimed
sum is not even defined. -/
theorem claim_C4_cex : circle_segment_area (3 / 2) 1 = .error .segDomain := by
  norm_num [circle_segment_area]

/-- C4 (amended): the guarded circle_segment_area raises for r < h ≤ 2r; the
fold-over identity instead holds for the unguarded closed-form segment
expression that vessel_area_two_phase relies on: for 0 < r and r ≤ h ≤ 2r,
segment_area_fm h r + segment_area_fm (2r - h) r = pi * r ^ 2. -/
theorem claim_C4 (h r : ℝ) (hr : 0 < r) (h1 : r ≤ h) (h2 : h ≤ 2 * r) :
    segment_area_fm h r + segment_area_fm (2 * r - h) r = Real.pi * r ^ 2 := by
  have hr0 : r ≠ 0 := ne_of_gt hr
  have e1 : (1 : ℝ) - (2 * r - h) / r = -(1 - h / r) := by
    field_simp
    ring
  have e2 : (r - (2 * r - h)) ^ 2 = (r - h) ^ 2 := by ring
  unfold segment_area_fm
  rw [e1, e2, Real.arccos_neg]
  ring

/-- C4 witness: the amended fold-over identity applied at h = 3/2, r = 1. -/
theorem claim_C4_witness :
    segment_area_fm (3 / 2) 1 + segment_area_fm (2 * 1 - 3 / 2) 1 = Real.pi * 1 ^ 2 :=
  claim_C4 (3 / 2) 1 (by norm_num) (by norm_num) (by norm_num)

/-- For a strictly positive Reynolds number the drag correlation evaluates
to its closed form. -/
theorem drag_coeff_of_pos (re : ℝ) (h : 0 < re) :
    drag_coeff re = .ok ((24 / re + 3 / Real.sqrt re + 0.34 : ℝ) : WithTop ℝ) := by
  have hs : Real.sqrt re ≠ 0 := (Real.sqrt_pos.mpr h).ne'
  simp only [drag_coeff, if_neg h.ne', fdiv, fsqrt, if_neg (not_lt.mpr h.le),
    if_neg hs, pure_ok, ok_bind]

/-- C9: for every re > 0 the drag-coefficient function returns exactly
24 / re + 3 / sqrt re + 0.34, and at re = 0 it returns the infinite drag
coefficient, the greatest element of the codomain order, instead of raising. -/
theorem claim_C9 :
    (∀ re : ℝ, 0 < re →
      drag_coeff re = .ok ((24 / re + 3 / Real.sqrt re + 0.34 : ℝ) : WithTop ℝ)) ∧
    drag_coeff 0 = .ok (⊤ : WithTop ℝ) ∧ (∀ c : WithTop ℝ, c ≤ ⊤) := by
  refine ⟨fun re h => drag_coeff_of_pos re h, ?_, fun c => le_top⟩
  simp [drag_coeff]

/-- C9 witness: the drag correlation evaluated at re = 1. -/
theorem claim_C9_witness :
    drag_coeff 1 = .ok ((24 / 1 + 3 / Real.sqrt 1 + 0.34 : ℝ) : WithTop ℝ) :=
  claim_C9.1 1 one_pos

/-! ### Inversion helpers -/

/-- A bind is ok exactly when both stages are ok. -/
theorem bind_eq_ok {α β : Type} {e : Except Err α} {f : α → Except Err β} {b : β} :
    e >>= f = .ok b ↔ ∃ a, e = .ok a ∧ f a = .ok b := by
  cases e <;> simp

/-- A successful guarded division returns the real quotient. -/
theorem fdiv_ok {x y v : ℝ} (h : fdiv x y = .ok v) : v = x / y := by
  simp only [fdiv] at h
  split at h
  · simp at h
  · rw [pure_ok] at h
    exact (Except.ok.inj h).symm

/-- A successful retention call returns length over velocity over 60. -/
theorem retention_ok {l v rt : ℝ} (h : retention l v = .ok rt) :
    rt = l / v * (1 / 60) := by
  simp only [retention] at h
  rw [bind_eq_ok] at h
  obtain ⟨q, hq, h⟩ := h
  rw [pure_ok] at h
  rw [← Except.ok.inj h, fdiv_ok hq]

/-- The coalescing-plate method can never return a result: the function it
delegates to is absent from the drops module. -/
theorem coal_plate_no_result (fuel : ℕ) (s : SepThreePhase) (dm pgap angl pf : ℝ)
    (p : SepThreePhase × ℝ) :
    SepThreePhase.coal_plate_length fuel s dm pgap angl pf ≠ .ok p := by
  intro h
  simp only [SepThreePhase.coal_plate_length] at h
  rw [bind_eq_ok] at h
  obtain ⟨a, _, hc⟩ := h
  simp at hc

/-! ### Concrete geometry evaluations -/

/-- arccos at one half. -/
theorem arccos_half : Real.arccos (1 / 2) = Real.pi / 3 := by
  rw [← Real.cos_pi_div_three]
  exact Real.arccos_cos (by positivity) (by linarith [Real.pi_pos])

/-- The square root of three quarters. -/
theorem sqrt_three_quarters : Real.sqrt (3 / 4) = Real.sqrt 3 / 2 := by
  rw [show (3 : ℝ) / 4 = (Real.sqrt 3 / 2) ^ 2 by
    rw [div_pow, Real.sq_sqrt (by norm_num : (0 : ℝ) ≤ 3)]
    norm_num]
  exact Real.sqrt_sq (by positivity)

/-- The square root of three is below two. -/
theorem sqrt_three_lt_two : Real.sqrt 3 < 2 := by
  have h4 : Real.sqrt 4 = 2 := by
    rw [show (4 : ℝ) = 2 ^ 2 by norm_num]
    exact Real.sqrt_sq (by norm_num)
  calc Real.sqrt 3 < Real.sqrt 4 := Real.sqrt_lt_sqrt (by norm_num) (by norm_num)
    _ = 2 := h4

/-- Segment area at half the radius. -/
theorem seg_half : segment_area_fm (1 / 2) 1 = Real.pi / 3 - Real.sqrt 3 / 4 := by
  unfold segment_area_fm
  rw [show (1 : ℝ) - 1 / 2 / 1 = 1 / 2 by norm_num,
    show ((1 : ℝ)) ^ 2 - ((1 : ℝ) - 1 / 2) ^ 2 = 3 / 4 by norm_num,
    arccos_half, sqrt_three_quarters]
  ring

/-- Segment area at the full radius: half the unit circle. -/
theorem seg_one : segment_area_fm 1 1 = Real.pi / 2 := by
  unfold segment_area_fm
  rw [show (1 : ℝ) - 1 / 1 = 0 by norm_num, Real.arccos_zero]
  norm_num

/-- The three-phase split of a diameter-2 vessel at oil height 1 and water
height one half. -/
theorem area_eval_c5 : vessel_area_three_phase 2 1 (1 / 2) =
    .ok (Real.pi / 6 + Real.sqrt 3 / 4, Real.pi / 3 - Real.sqrt 3 / 4, Real.pi / 2) := by
  norm_num [vessel_area_three_phase, circle_segment_area, seg_half, seg_one]
  ring

/-- A guarded division of a nonzero value by itself returns one. -/
theorem fdiv_self {a : ℝ} (h : a ≠ 0) : fdiv a a = .ok 1 := by
  simp [fdiv, h, div_self h]

/-- C5 counterexample: with seam-to-seam length 60 and effective length 30,
three_phase_velocities returns retention time 1 minute for every phase
(each bulk velocity is 1 ft/s), while effective_length / velocity / 60 is
one half: the standalone function normalizes by the seam-to-seam length,
not the effective length. -/
theorem claim_C5_cex :
    three_phase_velocities 2 60 1 (1 / 2) (Real.pi / 6 + Real.sqrt 3 / 4)
        (Real.pi / 3 - Real.sqrt 3 / 4) (Real.pi / 2) = .ok (1, 1, 1, 1, 1, 1) ∧
    retention 30 1 = .ok (1 / 2) ∧ ((1 : ℝ) ≠ 30 / 1 * (1 / 60)) := by
  have haoil : (0 : ℝ) < Real.pi / 6 + Real.sqrt 3 / 4 := by positivity
  have hawat : (0 : ℝ) < Real.pi / 3 - Real.sqrt 3 / 4 := by
    have h2 := sqrt_three_lt_two
    have h3 := Real.pi_gt_three
    linarith
  have hagas : (0 : ℝ) < Real.pi / 2 := by positivity
  refine ⟨?_, ?_, by norm_num⟩
  · simp only [three_phase_velocities, area_eval_c5, ok_bind,
      fdiv_self (ne_of_gt haoil), fdiv_self (ne_of_gt hawat), fdiv_self (ne_of_gt hagas)]
    norm_num [fdiv]
  · norm_num [retention, fdiv]

/-- C5 (corrected): the retention quantities of the Fluid/Stream Derivation
component.  The retention function and the three-phase separator
constructor divide the vessel effective length by the phase velocity and by
60; the standalone three_phase_velocities function instead divides its
seam-to-seam length argument lss by the velocity and by 60. -/
theorem claim_C5 :
    (∀ leff vx : ℝ, vx ≠ 0 → retention leff vx = .ok (leff / vx * (1 / 60))) ∧
    (∀ fuel vid lss leff hoil hwat po pw pg s,
      mkSepThreePhase fuel vid lss leff hoil hwat po pw pg = .ok s →
      s.ret_oil = leff / s.vx_oil * (1 / 60) ∧
      s.ret_wat = leff / s.vx_wat * (1 / 60) ∧
      s.ret_gas = leff / s.vx_gas * (1 / 60)) ∧
    (∀ vid lss hoil hwat qo qw qg vxo vxw vxg ro rw0 rg,
      three_phase_velocities vid lss hoil hwat qo qw qg =
        .ok (vxo, vxw, vxg, ro, rw0, rg) →
      ro = lss / vxo * (1 / 60) ∧ rw0 = lss / vxw * (1 / 60) ∧
      rg = lss / vxg * (1 / 60)) := by
  refine ⟨fun leff vx hvx => by simp [retention, fdiv, hvx], ?_, ?_⟩
  · intro fuel vid lss leff hoil hwat po pw pg s h
    simp only [mkSepThreePhase] at h
    rw [bind_eq_ok] at h
    obtain ⟨a, _, h⟩ := h
    rw [bind_eq_ok] at h
    obtain ⟨dh, _, h⟩ := h
    rw [bind_eq_ok] at h
    obtain ⟨qo, _, h⟩ := h
    rw [bind_eq_ok] at h
    obtain ⟨qw, _, h⟩ := h
    rw [bind_eq_ok] at h
    obtain ⟨qg, _, h⟩ := h
    rw [bind_eq_ok] at h
    obtain ⟨vo, _, h⟩ := h
    rw [bind_eq_ok] at h
    obtain ⟨vw, _, h⟩ := h
    rw [bind_eq_ok] at h
    obtain ⟨vg, _, h⟩ := h
    rw [bind_eq_ok] at h
    obtain ⟨ro, hro, h⟩ := h
    rw [bind_eq_ok] at h
    obtain ⟨rw0, hrw, h⟩ := h
    rw [bind_eq_ok] at h
    obtain ⟨rg, hrg, h⟩ := h
    rw [bind_eq_ok] at h
    obtain ⟨reo, _, h⟩ := h
    rw [bind_eq_ok] at h
    obtain ⟨rew, _, h⟩ := h
    rw [bind_eq_ok] at h
    obtain ⟨reg, _, h⟩ := h
    rw [bind_eq_ok] at h
    obtain ⟨t1, _, h⟩ := h
    rw [bind_eq_ok] at h
    obtain ⟨t2, _, h⟩ := h
    rw [bind_eq_ok] at h
    obtain ⟨t3, _, h⟩ := h
    rw [bind_eq_ok] at h
    obtain ⟨d1, _, h⟩ := h
    rw [bind_eq_ok] at h
    obtain ⟨d2, _, h⟩ := h
    rw [bind_eq_ok] at h
    obtain ⟨d3, _, h⟩ := h
    rw [pure_ok] at h
    cases Except.ok.inj h
    exact ⟨retention_ok hro, retention_ok hrw, retention_ok hrg⟩
  · intro vid lss hoil hwat qo qw qg vxo vxw vxg ro rw0 rg h
    simp only [three_phase_velocities] at h
    rw [bind_eq_ok] at h
    obtain ⟨a, _, h⟩ := h
    rw [bind_eq_ok] at h
    obtain ⟨vo, _, h⟩ := h
    rw [bind_eq_ok] at h
    obtain ⟨vw, _, h⟩ := h
    rw [bind_eq_ok] at h
    obtain ⟨vg, _, h⟩ := h
    rw [bind_eq_ok] at h
    obtain ⟨qro, hqro, h⟩ := h
    rw [bind_eq_ok] at h
    obtain ⟨qrw, hqrw, h⟩ := h
    rw [bind_eq_ok] at h
    obtain ⟨qrg, hqrg, h⟩ := h
    rw [pure_ok] at h
    have h2 := Except.ok.inj h
    simp only [Prod.mk.injEq] at h2
    obtain ⟨rfl, rfl, rfl, rfl, rfl, rfl⟩ := h2
    exact ⟨by rw [fdiv_ok hqro], by rw [fdiv_ok hqrw], by rw [fdiv_ok hqrg]⟩

/-- C5 witness: the retention formula of the retention function at
effective length 30 and velocity 1. -/
theorem claim_C5_witness : retention 30 1 = .ok (30 / 1 * (1 / 60)) :=
  claim_C5.1 30 1 (by norm_num)

/-- C6: the coalescing-plate method never produces a plate length.  After
computing the oil droplet terminal velocity it looks up
drp.coal_plate_length, which the drops module does not define, so every
invocation ends in an error (AttributeError in Python) instead of the
plate length its docstring promises. -/
theorem claim_C6_thm (fuel : ℕ) (s : SepThreePhase) (dm pgap angl pf : ℝ) :
    ∃ e, SepThreePhase.coal_plate_length fuel s dm pgap angl pf = .error e := by
  cases h : SepThreePhase.coal_plate_length fuel s dm pgap angl pf with
  | error e => exact ⟨e, rfl⟩
  | ok p => exact absurd h (coal_plate_no_result fuel s dm pgap angl pf p)

/-- C7 counterexample: invoking shell_thick on a constructed object is not
read-only: it stores the mawp argument on the object, so the resulting
state differs from the pre-call state. -/
theorem claim_C7_cex :
    (∃ t, SepTwoPhase.shell_thick sample_two_phase 100 20000 1 0.125 =
      .ok ({ sample_two_phase with mawp := some 100 }, t)) ∧
    { sample_two_phase with mawp := some 100 } ≠ sample_two_phase := by
  constructor
  · refine ⟨100 * (12 * 1 / 2) / (20000 * 1 - 0.6 * 100) + 0.125, ?_⟩
    norm_num [SepTwoPhase.shell_thick, sep_shell_thick, fdiv, sample_two_phase]
  · intro h
    have h2 := congrArg SepTwoPhase.mawp h
    simp [sample_two_phase] at h2

/-- C7 (corrected): all query methods leave every construction-assigned
field unchanged; weight_bare, terminal_lig and coal_plate_length leave the
object identical, while shell_thick additionally records its mawp argument
as a new attribute (the one post-construction write). -/
theorem claim_C7 :
    (∀ (s : SepTwoPhase) (mawp sv eff corr : ℝ) (p : SepTwoPhase × ℝ),
      SepTwoPhase.shell_thick s mawp sv eff corr = .ok p →
      p.1 = { s with mawp := some mawp }) ∧
    (∀ (s : SepTwoPhase) (thk rho : ℝ) (p : SepTwoPhase × ℝ),
      SepTwoPhase.weight_bare s thk rho = .ok p → p.1 = s) ∧
    (∀ (fuel : ℕ) (s : SepTwoPhase) (dm : ℝ) (p : SepTwoPhase × ℝ),
      SepTwoPhase.terminal_lig fuel s dm = .ok p → p.1 = s) ∧
    (∀ (s : SepThreePhase) (mawp sv eff corr : ℝ) (p : SepThreePhase × ℝ),
      SepThreePhase.shell_thick s mawp sv eff corr = .ok p →
      p.1 = { s with mawp := some mawp }) ∧
    (∀ (s : SepThreePhase) (thk rho : ℝ) (p : SepThreePhase × ℝ),
      SepThreePhase.weight_bare s thk rho = .ok p → p.1 = s) ∧
    (∀ (fuel : ℕ) (s : SepThreePhase) (dm pgap angl pf : ℝ) (p : SepThreePhase × ℝ),
      SepThreePhase.coal_plate_length fuel s dm pgap angl pf ≠ .ok p) := by
  refine ⟨?_, ?_, ?_, ?_, ?_, fun fuel s dm pgap angl pf p =>
    coal_plate_no_result fuel s dm pgap angl pf p⟩
  · intro s mawp sv eff corr p h
    simp only [SepTwoPhase.shell_thick] at h
    rw [bind_eq_ok] at h
    obtain ⟨t, _, h⟩ := h
    rw [pure_ok] at h
    cases Except.ok.inj h
    rfl
  · intro s thk rho p h
    simp only [SepTwoPhase.weight_bare] at h
    rw [bind_eq_ok] at h
    obtain ⟨t, _, h⟩ := h
    rw [pure_ok] at h
    cases Except.ok.inj h
    rfl
  · intro fuel s dm p h
    simp only [SepTwoPhase.terminal_lig] at h
    rw [bind_eq_ok] at h
    obtain ⟨t, _, h⟩ := h
    rw [pure_ok] at h
    cases Except.ok.inj h
    rfl
  · intro s mawp sv eff corr p h
    simp only [SepThreePhase.shell_thick] at h
    rw [bind_eq_ok] at h
    obtain ⟨t, _, h⟩ := h
    rw [pure_ok] at h
    cases Except.ok.inj h
    rfl
  · intro s thk rho p h
    simp only [SepThreePhase.weight_bare] at h
    rw [bind_eq_ok] at h
    obtain ⟨t, _, h⟩ := h
    rw [pure_ok] at h
    cases Except.ok.inj h
    rfl

/-- C7 witness: the frame theorem applied to the sample state, with the
shell_thick result computed explicitly. -/
theorem claim_C7_witness :
    (({ sample_two_phase with mawp := some 100 },
      (100 * (12 * 1 / 2) / (20000 * 1 - 0.6 * 100) + 0.125 : ℝ)) :
        SepTwoPhase × ℝ).1 = { sample_two_phase with mawp := some 100 } :=
  claim_C7.1 sample_two_phase 100 20000 1 0.125 _
    (by norm_num [SepTwoPhase.shell_thick, sep_shell_thick, fdiv, sample_two_phase])

/-- C8: constructing a three-phase separator with water height above oil
height, or with oil height above the vessel diameter, fails with one of
the two height-ordering validation errors: a guard at the top of
vessel_area_three_phase fires and the error propagates out of the
constructor before any sizing arithmetic runs. -/
theorem claim_C8 (fuel : ℕ) (vid lss leff hoil hwat : ℝ) (po pw pg : StreamProps)
    (h : hwat > hoil ∨ hoil > vid) :
    ∃ e, (e = Err.orderWatOil ∨ e = Err.orderOilDiam) ∧
      vessel_area_three_phase vid hoil hwat = .error e ∧
      mkSepThreePhase fuel vid lss leff hoil hwat po pw pg = .error e := by
  by_cases hw : hwat > hoil
  · have h2 : vessel_area_three_phase vid hoil hwat = .error .orderWatOil := by
      simp [vessel_area_three_phase, hw]
    exact ⟨.orderWatOil, Or.inl rfl, h2, by simp [mkSepThreePhase, h2]⟩
  · have hd : hoil > vid := h.resolve_left hw
    have h2 : vessel_area_three_phase vid hoil hwat = .error .orderOilDiam := by
      simp [vessel_area_three_phase, hw, hd]
    exact ⟨.orderOilDiam, Or.inr rfl, h2, by simp [mkSepThreePhase, h2]⟩

/-- The arc length of a segment of positive height is positive. -/
theorem segP_pos {h r : ℝ} (hr : 0 < r) (hh : 0 < h) :
    0 < r * 2 * Real.arccos ((r - h) / r) := by
  refine mul_pos (by linarith) (Real.arccos_pos.mpr ?_)
  rw [div_lt_one hr]
  linarith

/-- The arc length of a segment is at most the full circumference. -/
theorem segP_le {h r : ℝ} (hr : 0 < r) :
    r * 2 * Real.arccos ((r - h) / r) ≤ Real.pi * 2 * r := by
  have h1 := Real.arccos_le_pi ((r - h) / r)
  nlinarith

/-- The chord of a segment of height strictly between 0 and the diameter is
positive. -/
theorem segC_pos {h r : ℝ} (hh : 0 < h) (hlt : h < 2 * r) :
    0 < 2 * Real.sqrt (r ^ 2 - (r - h) ^ 2) := by
  have hx : 0 < r ^ 2 - (r - h) ^ 2 := by nlinarith
  exact mul_pos two_pos (Real.sqrt_pos.mpr hx)

/-- With equal water and oil heights the oil band area is exactly zero. -/
theorem area_three_equal_heights (vid h0 : ℝ) (hpos : 0 < h0) (hle : h0 ≤ vid) :
    ∃ aw ag, vessel_area_three_phase vid h0 h0 = .ok (0, aw, ag) := by
  have hvid : 0 < vid := lt_of_lt_of_le hpos hle
  have hr : 0 < vid / 2 := by linarith
  by_cases hb : h0 ≤ vid / 2
  · by_cases hg : vid - h0 ≤ vid / 2
    · have he : h0 = vid / 2 := le_antisymm hb (by linarith)
      subst he
      have hF : segment_area_fm (vid / 2) (vid / 2) = Real.pi * (vid / 2) ^ 2 / 2 := by
        unfold segment_area_fm
        rw [div_self (ne_of_gt hr)]
        simp [Real.arccos_zero]
        ring
      refine ⟨Real.pi * (vid / 2) ^ 2 / 2, Real.pi * (vid / 2) ^ 2 / 2, ?_⟩
      simp [vessel_area_three_phase, circle_segment_area, not_lt.mpr hle,
        not_lt.mpr hb, hb, sub_half, hF]
    · refine ⟨segment_area_fm h0 (vid / 2),
        Real.pi * (vid / 2) ^ 2 - segment_area_fm h0 (vid / 2), ?_⟩
      simp [vessel_area_three_phase, circle_segment_area, not_lt.mpr hle,
        not_lt.mpr hb, hb, hg, sub_sub_cancel]
  · have hg : vid - h0 ≤ vid / 2 := by linarith [not_le.mp hb]
    have hfold : ¬ vid - h0 > vid / 2 := not_lt.mpr hg
    refine ⟨Real.pi * (vid / 2) ^ 2 - segment_area_fm (vid - h0) (vid / 2),
      segment_area_fm (vid - h0) (vid / 2), ?_⟩
    simp [vessel_area_three_phase, circle_segment_area, not_lt.mpr hle, hb,
      hg, hfold]

/-- With equal heights strictly inside the vessel, the wetted-perimeter
split succeeds and every band has a nonzero wetted perimeter. -/
theorem perim_three_equal_heights_lt (vid h0 : ℝ) (hpos : 0 < h0) (hlt : h0 < vid) :
    ∃ wpo wpw wpg, vessel_perim_three_phase vid h0 h0 = .ok (wpo, wpw, wpg) ∧
      wpo ≠ 0 ∧ wpw ≠ 0 ∧ wpg ≠ 0 := by
  have hvid : 0 < vid := lt_trans hpos hlt
  have hr : 0 < vid / 2 := by linarith
  by_cases hb : h0 ≤ vid / 2
  · by_cases hg : vid - h0 ≤ vid / 2
    · have he : h0 = vid / 2 := le_antisymm hb (by linarith)
      subst he
      have hP : vid / 2 * 2 * Real.arccos ((vid / 2 - vid / 2) / (vid / 2)) =
          Real.pi * (vid / 2) := by
        rw [sub_self, zero_div, Real.arccos_zero]
        ring
      have hC : 0 < 2 * Real.sqrt ((vid / 2) ^ 2 - (vid / 2 - vid / 2) ^ 2) :=
        segC_pos hr (by linarith)
      refine ⟨2 * Real.sqrt ((vid / 2) ^ 2 - (vid / 2 - vid / 2) ^ 2) +
          2 * Real.sqrt ((vid / 2) ^ 2 - (vid / 2 - vid / 2) ^ 2),
        Real.pi * (vid / 2) + 2 * Real.sqrt ((vid / 2) ^ 2 - (vid / 2 - vid / 2) ^ 2),
        Real.pi * (vid / 2) + 2 * Real.sqrt ((vid / 2) ^ 2 - (vid / 2 - vid / 2) ^ 2),
        ?_, ?_, ?_, ?_⟩
      · simp [vessel_perim_three_phase, circle_segment_perimeter,
          circle_chord_length, not_lt.mpr (le_of_lt hlt), hb, sub_half, hP]
        exact ⟨by ring, by ring⟩
      · positivity
      · have hpi : (0 : ℝ) < Real.pi * (vid / 2) := by positivity
        positivity
      · have hpi : (0 : ℝ) < Real.pi * (vid / 2) := by positivity
        positivity
    · have hfold : ¬ vid - h0 ≤ vid / 2 := hg
      have h2r : h0 < 2 * (vid / 2) := by linarith
      have hP := segP_pos hr hpos
      have hPle := @segP_le h0 (vid / 2) hr
      have hC := segC_pos hpos h2r
      refine ⟨2 * Real.sqrt ((vid / 2) ^ 2 - (vid / 2 - h0) ^ 2) +
          2 * Real.sqrt ((vid / 2) ^ 2 - (vid / 2 - h0) ^ 2),
        vid / 2 * 2 * Real.arccos ((vid / 2 - h0) / (vid / 2)) +
          2 * Real.sqrt ((vid / 2) ^ 2 - (vid / 2 - h0) ^ 2),
        Real.pi * 2 * (vid / 2) -
          vid / 2 * 2 * Real.arccos ((vid / 2 - h0) / (vid / 2)) +
          2 * Real.sqrt ((vid / 2) ^ 2 - (vid / 2 - h0) ^ 2), ?_, ?_, ?_, ?_⟩
      · simp [vessel_perim_three_phase, circle_segment_perimeter,
          circle_chord_length, not_lt.mpr (le_of_lt hlt), hb, hfold,
          not_lt.mpr hb, sub_sub_cancel]
      · positivity
      · positivity
      · have : 0 < Real.pi * 2 * (vid / 2) -
            vid / 2 * 2 * Real.arccos ((vid / 2 - h0) / (vid / 2)) +
            2 * Real.sqrt ((vid / 2) ^ 2 - (vid / 2 - h0) ^ 2) := by linarith
        exact ne_of_gt this
  · have hg : vid - h0 ≤ vid / 2 := by linarith [not_le.mp hb]
    have hfoldw : ¬ vid - h0 > vid / 2 := not_lt.mpr hg
    have hc2 : 0 < vid - h0 := by linarith
    have h2r : vid - h0 < 2 * (vid / 2) := by linarith
    have hP := segP_pos hr hc2
    have hPle := @segP_le (vid - h0) (vid / 2) hr
    have hC := segC_pos hc2 h2r
    refine ⟨2 * Real.sqrt ((vid / 2) ^ 2 - (vid / 2 - (vid - h0)) ^ 2) +
        2 * Real.sqrt ((vid / 2) ^ 2 - (vid / 2 - (vid - h0)) ^ 2),
      Real.pi * 2 * (vid / 2) -
        vid / 2 * 2 * Real.arccos ((vid / 2 - (vid - h0)) / (vid / 2)) +
        2 * Real.sqrt ((vid / 2) ^ 2 - (vid / 2 - (vid - h0)) ^ 2),
      vid / 2 * 2 * Real.arccos ((vid / 2 - (vid - h0)) / (vid / 2)) +
        2 * Real.sqrt ((vid / 2) ^ 2 - (vid / 2 - (vid - h0)) ^ 2), ?_, ?_, ?_, ?_⟩
    · simp [vessel_perim_three_phase, circle_segment_perimeter,
        circle_chord_length, not_lt.mpr (le_of_lt hlt), hb, hg,
        not_lt.mpr hg]
    · positivity
    · have : 0 < Real.pi * 2 * (vid / 2) -
          vid / 2 * 2 * Real.arccos ((vid / 2 - (vid - h0)) / (vid / 2)) +
          2 * Real.sqrt ((vid / 2) ^ 2 - (vid / 2 - (vid - h0)) ^ 2) := by linarith
      exact ne_of_gt this
    · positivity

/-- With equal heights strictly inside the vessel the hydraulic-diameter
split succeeds, with a zero oil hydraulic diameter. -/
theorem dhyd_three_equal_heights_lt (vid h0 : ℝ) (hpos : 0 < h0) (hlt : h0 < vid) :
    ∃ d2 d3, vessel_dhyd_three_phase vid h0 h0 = .ok (0, d2, d3) := by
  obtain ⟨aw, ag, ha⟩ := area_three_equal_heights vid h0 hpos (le_of_lt hlt)
  obtain ⟨wpo, wpw, wpg, hp, h1, h2, h3⟩ := perim_three_equal_heights_lt vid h0 hpos hlt
  refine ⟨4 * aw / wpw, 4 * ag / wpg, ?_⟩
  simp [vessel_dhyd_three_phase, ha, hp, hydraulic_diameter, fdiv, h1, h2, h3]

/-- With both heights at the full diameter the oil wetted perimeter is zero
and the hydraulic-diameter stage raises the division-by-zero error. -/
theorem dhyd_err_at_full (vid : ℝ) (hpos : 0 < vid) :
    vessel_dhyd_three_phase vid vid vid = .error .zeroDiv := by
  have hr : 0 < vid / 2 := by linarith
  have hb : ¬ vid ≤ vid / 2 := by linarith
  obtain ⟨aw, ag, ha⟩ := area_three_equal_heights vid vid hpos le_rfl
  have hseg0 : circle_segment_perimeter 0 (vid / 2) = .ok 0 := by
    rw [circle_segment_perimeter, if_neg (by linarith : ¬ (0 : ℝ) > vid / 2),
      sub_zero, div_self (ne_of_gt hr), Real.arccos_one]
    norm_num
  have hch0 : circle_chord_length 0 (vid / 2) = .ok 0 := by
    rw [circle_chord_length, if_neg (by linarith : ¬ (0 : ℝ) > vid / 2), sub_zero]
    simp
  have hperim : vessel_perim_three_phase vid vid vid =
      .ok (0, Real.pi * 2 * (vid / 2), 0) := by
    simp only [vessel_perim_three_phase, lt_self_iff_false, if_false, sub_self]
    rw [if_neg hb]
    simp [hseg0, hch0, if_pos (le_of_lt hr)]
  simp [vessel_dhyd_three_phase, ha, hperim, hydraulic_diameter, fdiv]

/-- C10: a height combination with water height equal to oil height is
accepted by the area routine with a zero oil band, and the three-phase
constructor then fails with the division-by-zero error (at the oil velocity
for heights inside the vessel, at the oil hydraulic diameter when the
heights equal the diameter) instead of returning a sizing result. -/
theorem claim_C10 (fuel : ℕ) (vid lss leff h0 : ℝ) (po pw pg : StreamProps)
    (hpos : 0 < h0) (hle : h0 ≤ vid) (ho : po.density ≠ 0) (hw : pw.density ≠ 0)
    (hg : pg.density ≠ 0) (hmf : 0 < po.mass_flow) :
    (∃ aw ag, vessel_area_three_phase vid h0 h0 = .ok (0, aw, ag)) ∧
    mkSepThreePhase fuel vid lss leff h0 h0 po pw pg = .error .zeroDiv := by
  refine ⟨area_three_equal_heights vid h0 hpos hle, ?_⟩
  rcases eq_or_lt_of_le hle with heq | hlt
  · subst heq
    obtain ⟨aw, ag, ha⟩ := area_three_equal_heights h0 h0 hpos le_rfl
    simp [mkSepThreePhase, ha, dhyd_err_at_full h0 hpos]
  · obtain ⟨aw, ag, ha⟩ := area_three_equal_heights vid h0 hpos hle
    obtain ⟨d2, d3, hd⟩ := dhyd_three_equal_heights_lt vid h0 hpos hlt
    simp [mkSepThreePhase, ha, hd, volm_flow, velocity_volm, fdiv, ho, hw, hg]

/-- C10 witness: the constructor applied at equal heights 1 in a
diameter-2 vessel with unit stream properties. -/
theorem claim_C10_witness :
    (∃ aw ag, vessel_area_three_phase 2 1 1 = .ok (0, aw, ag)) ∧
    mkSepThreePhase 3 2 4 1 1 1 ⟨1, 1, 1⟩ ⟨1, 1, 1⟩ ⟨1, 1, 1⟩ = .error .zeroDiv :=
  claim_C10 3 2 4 1 1 ⟨1, 1, 1⟩ ⟨1, 1, 1⟩ ⟨1, 1, 1⟩ (by norm_num) (by norm_num)
    (by norm_num) (by norm_num) (by norm_num) (by norm_num)

/-- C3: a two-phase separator stores as its minimum liquid-in-gas droplet
the diameter solver's output, invoked at the required velocity
(vid - hliq) / (ret_gas * 60) with the liquid density as droplet density,
the gas density and converted gas viscosity as the continuous phase and
standard gravity 32.174, converted from feet to microns (times 304800). -/
theorem claim_C3 (fuel : ℕ) (vid lss leff hliq : ℝ) (lp gp : StreamProps)
    (s : SepTwoPhase) (h : mkSepTwoPhase fuel vid lss leff hliq lp gp = .ok s) :
    s.g = 32.174 ∧
    ∃ dd, droplet_diameter fuel ((vid - hliq) / (s.ret_gas * 60)) lp.density
        gp.density (centipoise_to_lbm gp.viscosity) 32.174 = .ok dd ∧
      s.drop_liq = feet_to_micron dd ∧ s.drop_liq = dd * 304800 := by
  simp only [mkSepTwoPhase] at h
  rw [bind_eq_ok] at h
  obtain ⟨a, _, h⟩ := h
  rw [bind_eq_ok] at h
  obtain ⟨dh, _, h⟩ := h
  rw [bind_eq_ok] at h
  obtain ⟨ql, _, h⟩ := h
  rw [bind_eq_ok] at h
  obtain ⟨qg, _, h⟩ := h
  rw [bind_eq_ok] at h
  obtain ⟨vl, _, h⟩ := h
  rw [bind_eq_ok] at h
  obtain ⟨vg, _, h⟩ := h
  rw [bind_eq_ok] at h
  obtain ⟨rl, _, h⟩ := h
  rw [bind_eq_ok] at h
  obtain ⟨rg, _, h⟩ := h
  rw [bind_eq_ok] at h
  obtain ⟨rel, _, h⟩ := h
  rw [bind_eq_ok] at h
  obtain ⟨reg, _, h⟩ := h
  rw [bind_eq_ok] at h
  obtain ⟨vt, hvt, h⟩ := h
  rw [bind_eq_ok] at h
  obtain ⟨dl, hdl, h⟩ := h
  rw [pure_ok] at h
  cases Except.ok.inj h
  rw [fdiv_ok hvt] at hdl
  exact ⟨rfl, dl, hdl, rfl, rfl⟩

/-- The one-step unfolding of the diameter solver loop. -/
theorem droplet_go_succ (vt rho_drop rho_fld mu_fld g dd : ℝ) (n : ℕ) :
    droplet_diameter_go vt rho_drop rho_fld mu_fld g (n + 1) dd =
      (do
        let dd_new ← diameter_step vt rho_drop rho_fld mu_fld g dd
        if |dd_new - dd| < 1e-9 then pure dd_new
        else droplet_diameter_go vt rho_drop rho_fld mu_fld g n dd_new) := by
  simp only [droplet_diameter_go]

/-- The two-phase split of a diameter-2 vessel at liquid height 1. -/
theorem eval_area_c3 : vessel_area_two_phase 2 1 = .ok (Real.pi / 2, Real.pi / 2) := by
  norm_num [vessel_area_two_phase, circle_segment_area, seg_one]
  ring

/-- The two-phase wetted perimeters of a diameter-2 vessel at liquid
height 1. -/
theorem eval_perim_c3 : vessel_perim_two_phase 2 1 =
    .ok (Real.pi + 2, Real.pi + 2) := by
  norm_num [vessel_perim_two_phase, circle_segment_perimeter, circle_chord_length,
    Real.arccos_zero, Real.sqrt_one]
  constructor
  · ring
  · ring

/-- The two-phase hydraulic diameters of a diameter-2 vessel at liquid
height 1. -/
theorem eval_dhyd_c3 : vessel_dhyd_two_phase 2 1 =
    .ok (2 * Real.pi / (Real.pi + 2), 2 * Real.pi / (Real.pi + 2)) := by
  have hp2 : Real.pi + 2 ≠ 0 := by positivity
  simp only [vessel_dhyd_two_phase, eval_area_c3, ok_bind, eval_perim_c3,
    hydraulic_diameter, fdiv, if_neg hp2, pure_ok]
  rw [show 4 * (Real.pi / 2) = 2 * Real.pi by ring]

/-- Liquid volumetric flow of the sample stream. -/
theorem eval_volm_liq : volm_flow (3600 * Real.pi) 2 = .ok (Real.pi / 2) := by
  simp only [volm_flow, fdiv, if_neg (by norm_num : ¬ ((2 : ℝ) = 0)), pure_ok, ok_bind]
  rw [show 3600 * Real.pi / 2 * (1 / (60 * 60)) = Real.pi / 2 by ring]

/-- Gas volumetric flow of the sample stream. -/
theorem eval_volm_gas : volm_flow (1800 * Real.pi) 1 = .ok (Real.pi / 2) := by
  simp only [volm_flow, fdiv, if_neg (by norm_num : ¬ ((1 : ℝ) = 0)), pure_ok, ok_bind]
  rw [show 1800 * Real.pi / 1 * (1 / (60 * 60)) = Real.pi / 2 by ring]

/-- Unit bulk velocity when the flow matches the band area. -/
theorem eval_vx_c3 : velocity_volm (Real.pi / 2) (Real.pi / 2) = .ok 1 := by
  rw [velocity_volm]
  exact fdiv_self (by positivity)

/-- Retention time of one minute over sixty. -/
theorem eval_ret_c3 : retention 1 1 = .ok (1 / 60) := by
  norm_num [retention, fdiv]

/-- Liquid Reynolds number of the sample vessel. -/
theorem eval_re_liq : reynolds 1 2 (2 * Real.pi / (Real.pi + 2))
    (centipoise_to_lbm 1488.2) =
    .ok (2 * 1 * (2 * Real.pi / (Real.pi + 2)) / centipoise_to_lbm 1488.2) := by
  rw [reynolds, fdiv, if_neg (by norm_num [centipoise_to_lbm])]
  rfl

/-- Gas Reynolds number of the sample vessel. -/
theorem eval_re_gas : reynolds 1 1 (2 * Real.pi / (Real.pi + 2))
    (centipoise_to_lbm (379491 / 321740000000000000000)) =
    .ok (1 * 1 * (2 * Real.pi / (Real.pi + 2)) /
      centipoise_to_lbm (379491 / 321740000000000000000)) := by
  rw [reynolds, fdiv, if_neg (by norm_num [centipoise_to_lbm])]
  rfl

/-- Required settling velocity of one foot per second. -/
theorem eval_vtreq_c3 : fdiv (2 - 1) (1 / 60 * 60) = .ok 1 := by
  norm_num [fdiv]

/-- The diameter solver at the sample gas stream converges in one step. -/
theorem eval_drop_c3 :
    droplet_diameter 1 1 2 1 (centipoise_to_lbm (379491 / 321740000000000000000))
      32.174 =
    .ok (3 / 128.696 * (24 / 10000000000000000 + 3 / 100000000 + 0.34)) := by
  have hD0 : diameter_drop 1 0.34 2 1 32.174 = .ok (1.02 / 128.696) := by
    norm_num [diameter_drop, fdiv]
  have hre : reynolds_sphere (1.02 / 128.696) 1 1
      (centipoise_to_lbm (379491 / 321740000000000000000)) =
      .ok 10000000000000000 := by
    norm_num [reynolds_sphere, fdiv, centipoise_to_lbm]
  have hsq : Real.sqrt 10000000000000000 = 100000000 := by
    rw [show (10000000000000000 : ℝ) = 100000000 ^ 2 by norm_num,
      Real.sqrt_sq (by norm_num)]
  have hdc : drag_coeff 10000000000000000 =
      .ok ((24 / 10000000000000000 + 3 / 100000000 + 0.34 : ℝ) : WithTop ℝ) := by
    rw [drag_coeff_of_pos _ (by norm_num), hsq]
  have hD1 : diameter_drop 1 (24 / 10000000000000000 + 3 / 100000000 + 0.34) 2 1
      32.174 =
      .ok (3 / 128.696 * (24 / 10000000000000000 + 3 / 100000000 + 0.34)) := by
    norm_num [diameter_drop, fdiv]
  have hcond : |3 / 128.696 * (24 / 10000000000000000 + 3 / 100000000 + 0.34) -
      1.02 / 128.696| < (1e-9 : ℝ) := by
    rw [abs_of_pos (by norm_num)]
    norm_num
  show droplet_diameter (0 + 1) 1 2 1
    (centipoise_to_lbm (379491 / 321740000000000000000)) 32.174 = _
  simp only [droplet_diameter, hD0, ok_bind, droplet_go_succ, diameter_step,
    hre, hdc, with_cd, WithTop.recTopCoe_coe, hD1, if_pos hcond, pure_ok]

/-- The sample two-phase construction succeeds and produces the sample
state. -/
theorem mk_two_eval : mkSepTwoPhase 1 2 4 1 1 ⟨3600 * Real.pi, 2, 1488.2⟩
    ⟨1800 * Real.pi, 1, 379491 / 321740000000000000000⟩ =
    .ok sample_constructed := by
  simp only [mkSepTwoPhase, eval_area_c3, ok_bind, eval_dhyd_c3, eval_volm_liq,
    eval_volm_gas, eval_vx_c3, eval_ret_c3, eval_re_liq, eval_re_gas,
    eval_vtreq_c3, eval_drop_c3, pure_ok]
  rfl

/-- C3 witness: the droplet-solver invocation property read off the sample
construction. -/
theorem claim_C3_witness :
    sample_constructed.g = 32.174 ∧
    ∃ dd, droplet_diameter 1 ((2 - 1) / (sample_constructed.ret_gas * 60)) 2 1
        (centipoise_to_lbm (379491 / 321740000000000000000)) 32.174 = .ok dd ∧
      sample_constructed.drop_liq = feet_to_micron dd ∧
      sample_constructed.drop_liq = dd * 304800 :=
  claim_C3 1 2 4 1 1 ⟨3600 * Real.pi, 2, 1488.2⟩
    ⟨1800 * Real.pi, 1, 379491 / 321740000000000000000⟩ sample_constructed
    mk_two_eval

/-- C8 witness: both violation families at concrete inputs — the claim's
scenario of water height 10 above oil height 5, and an oil height 6 above
a diameter-5 vessel. -/
theorem claim_C8_witness :
    (∃ e, (e = Err.orderWatOil ∨ e = Err.orderOilDiam) ∧
      vessel_area_three_phase 12 5 10 = .error e ∧
      mkSepThreePhase 7 12 20 15 5 10 ⟨1, 1, 1⟩ ⟨1, 1, 1⟩ ⟨1, 1, 1⟩ = .error e) ∧
    (∃ e, (e = Err.orderWatOil ∨ e = Err.orderOilDiam) ∧
      vessel_area_three_phase 5 6 3 = .error e ∧
      mkSepThreePhase 7 5 20 15 6 3 ⟨1, 1, 1⟩ ⟨1, 1, 1⟩ ⟨1, 1, 1⟩ = .error e) :=
  ⟨claim_C8 7 12 20 15 5 10 ⟨1, 1, 1⟩ ⟨1, 1, 1⟩ ⟨1, 1, 1⟩ (Or.inl (by norm_num)),
   claim_C8 7 5 20 15 6 3 ⟨1, 1, 1⟩ ⟨1, 1, 1⟩ ⟨1, 1, 1⟩ (Or.inr (by norm_num))⟩

/-! ### The solver round trip -/

/-- The square root of ten to the sixteenth. -/
theorem sqrt_ten_pow_16 : Real.sqrt 10000000000000000 = 100000000 := by
  rw [show (10000000000000000 : ℝ) = 100000000 ^ 2 by norm_num,
    Real.sqrt_sq (by norm_num)]

/-- The drag correlation at Reynolds number ten to the sixteenth. -/
theorem cdR_ten_pow_16 :
    cdR 10000000000000000 = 24 / 10000000000000000 + 3 / 100000000 + 0.34 := by
  unfold cdR
  rw [sqrt_ten_pow_16]

/-- Squaring vround recovers the argument of its square root. -/
theorem vround_sq :
    vround ^ 2 =
      4 * 255 / 3 * (1 / 1000 / cdR 10000000000000000) * |((2 : ℝ) - 1) / 1| := by
  unfold vround
  apply Real.sq_sqrt
  rw [cdR_ten_pow_16, show ((2 : ℝ) - 1) / 1 = 1 by norm_num, abs_one]
  norm_num

end

end PySep
